import Mathlib

/-!
Shallow embedding of `src/backend/app.py` (AtFoodAI backend): the sliding-window
rate limiter, the action prompt templates, the provider-response normalization
and usage extraction, the cost computation, and the request pipeline of
`atfood_endpoint`.  Python `None`-able values are `Option`s, Python truthiness
is made explicit, `Decimal` amounts are rationals, the monotonic clock is a
linearly ordered additive group (so that time subtraction and comparison make
sense; concrete instances use `ℤ`), and the two external effects (the model
call and the database insert) are passed in as data: the provider response as a
value, the insert as a success flag, with the performed inserts returned
alongside the outcome.
-/

namespace AtFood

/-- Python truthiness of an optional string: `None` and `""` are falsy. -/
def pyTruthy : Option String → Bool
  | none => false
  | some s => !s.isEmpty

/-- Python `f"...{x}..."` rendering of a `None`-able string: `None` prints as `"None"`. -/
def pyStr : Option String → String
  | none => "None"
  | some s => s

/-! ## Rate limiter (`enforce_rate_limit`, lines 292-300)

A bucket is the deque of admission timestamps of one client key, oldest first.
`dropExpired` is the `while window and window[0] < cutoff: window.popleft()`
loop; `rateLimitStep` is one call of `enforce_rate_limit` on one bucket,
returning whether the request was allowed together with the mutated bucket. -/

section RateLimiter

variable {τ : Type} [LinearOrderedAddCommGroup τ]

/-- Drop the leading timestamps strictly older than `cutoff` (the `popleft` loop). -/
def dropExpired : List τ → τ → List τ
  | [], _ => []
  | t :: ts, cutoff => if t < cutoff then dropExpired ts cutoff else t :: ts

/-- One call of `enforce_rate_limit` on a single client bucket at time `now`:
prune expired timestamps, reject without recording when the pruned count is
already at the limit, otherwise record `now` and allow. -/
def rateLimitStep (maxRequests : ℕ) (windowSeconds : τ) (w : List τ) (now : τ) :
    Bool × List τ :=
  let pruned := dropExpired w (now - windowSeconds)
  if maxRequests ≤ pruned.length then (false, pruned)
  else (true, pruned ++ [now])

/-- Run a sequence of `enforce_rate_limit` calls (one client key) at the given
times, collecting the allow/reject answer of each call and the final bucket. -/
def runCalls (maxRequests : ℕ) (windowSeconds : τ) (w : List τ) : List τ → List Bool × List τ
  | [] => ([], w)
  | t :: ts =>
    let r := rateLimitStep maxRequests windowSeconds w t
    let rest := runCalls maxRequests windowSeconds r.2 ts
    (r.1 :: rest.1, rest.2)

end RateLimiter

/-! ## Request payload and prompt templates (`AtfoodRequest`, `RECIPE_CONTEXT`,
`ACTION_PROMPTS`, lines 95-140 and 166-172) -/

/-- Inbound request body.  All fields but `action` are `Optional` in the
pydantic model, i.e. default to `None`.  `prefs` is an open-ended dict,
modelled as an association list. -/
structure AtfoodRequest where
  action : String
  user_text : Option String
  recipe_id : Option String
  critic_topic : Option String
  session_id : Option String
  prefs : Option (List (String × String))
deriving DecidableEq

/-- One entry of the static `RECIPE_CONTEXT` dict. -/
structure RecipeInfo where
  title : String
  blurb : String
deriving DecidableEq

/-- The static recipe lookup dict, key to title/blurb. -/
def RECIPE_CONTEXT : List (String × RecipeInfo) :=
  [("chili_crisp_noodles",
    ⟨"15-minute chili crisp noodles",
     "Heat, crunch, and a sauce that clings. Easy to adapt: vegan, low-sodium, or extra protein."⟩),
   ("charred_lemon_chicken",
    ⟨"Charred lemon chicken + herbs",
     "Weeknight-perfect, restaurant aroma. Works with thighs, breasts, tofu, or cauliflower."⟩),
   ("silky_tomato_soup",
    ⟨"Silky tomato soup (no sadness)",
     "Roast the tomatoes. Finish with a bright acid. The difference is night and day."⟩)]

/-- Python `RECIPE_CONTEXT.get(key)` (with a missing key giving the default). -/
def recipeLookup (key : String) : Option RecipeInfo :=
  (RECIPE_CONTEXT.find? (fun kv => kv.1 == key)).map (fun kv => kv.2)

/-- Embeds the title lookup: `RECIPE_CONTEXT` read at the key
`req.recipe_id or` empty, with the found entry giving its title and a missing
entry defaulting to the raw (possibly `None`) id. -/
def recipeTitleOf (rid : Option String) : Option String :=
  match recipeLookup (rid.getD "") with
  | some info => some info.title
  | none => rid

/-- Embeds the blurb lookup: the found entry gives its blurb, a missing
entry defaults to the empty string. -/
def recipeBlurbOf (rid : Option String) : String :=
  match recipeLookup (rid.getD "") with
  | some info => info.blurb
  | none => ""

/-- A single-quote character, used inside some template strings. -/
def sq : String := String.singleton (Char.ofNat 39)

/-- Template for action `open_ai_kitchen`. -/
def openAiKitchenPrompt (req : AtfoodRequest) : String :=
  "ACTION=open_ai_kitchen\n" ++
  "Goal: Onboard user into AI Kitchen and collect dish + constraints.\n" ++
  "User text: " ++ (req.user_text.getD "") ++ "\n"

/-- Template for action `world_picks`. -/
def worldPicksPrompt (req : AtfoodRequest) : String :=
  "ACTION=world_picks\n" ++
  "Goal: Give " ++ sq ++ "world picks" ++ sq ++
  " + a flavor compass. Ask what they want to explore.\n" ++
  "User text: " ++ (req.user_text.getD "") ++ "\n"

/-- Template for action `food_era`. -/
def foodEraPrompt (req : AtfoodRequest) : String :=
  "ACTION=food_era\n" ++
  "Goal: Build a two-week " ++ sq ++ "food era" ++ sq ++
  " plan with sauces/techniques/dishes.\n" ++
  "User text: " ++ (req.user_text.getD "") ++ "\n"

/-- Template for action `adjust_recipe`.  Note the title falls back to the raw
`recipe_id`, which an f-string renders as `"None"` when it is `None`. -/
def adjustRecipePrompt (req : AtfoodRequest) : String :=
  "ACTION=adjust_recipe\n" ++
  "Goal: Adapt this recipe without losing soul.\n" ++
  "Recipe: " ++ pyStr (recipeTitleOf req.recipe_id) ++ "\n" ++
  "Recipe blurb: " ++ recipeBlurbOf req.recipe_id ++ "\n" ++
  "User constraints/request: " ++ (req.user_text.getD "") ++ "\n" ++
  "If user gave no constraints, propose 3 good adaptation directions.\n"

/-- Template for action `critic_notes`. -/
def criticNotesPrompt (req : AtfoodRequest) : String :=
  "ACTION=critic_notes\n" ++
  "Goal: Punchy critic note expansion.\n" ++
  "Topic: " ++ (req.critic_topic.getD "") ++ "\n" ++
  "User text: " ++ (req.user_text.getD "") ++ "\n"

/-- Embeds `ACTION_PROMPTS.get(action)`: the registered template, if any. -/
def ACTION_PROMPTS (action : String) : Option (AtfoodRequest → String) :=
  if action = "open_ai_kitchen" then some openAiKitchenPrompt
  else if action = "world_picks" then some worldPicksPrompt
  else if action = "food_era" then some foodEraPrompt
  else if action = "adjust_recipe" then some adjustRecipePrompt
  else if action = "critic_notes" then some criticNotesPrompt
  else none

/-- Render the template of an action on a request (`none` when the action is unknown). -/
def renderAction (action : String) (req : AtfoodRequest) : Option String :=
  (ACTION_PROMPTS action).map (fun builder => builder req)

/-- The five registered action names. -/
def actionNames : List String :=
  ["open_ai_kitchen", "world_picks", "food_era", "adjust_recipe", "critic_notes"]

/-- Replace a missing `user_text` or `critic_topic` by the present empty
string; the templates read these fields as `req.field or ''`. -/
def fillTextFields (req : AtfoodRequest) : AtfoodRequest :=
  { req with
    user_text := some (req.user_text.getD "")
    critic_topic := some (req.critic_topic.getD "") }

/-- The all-`None` `adjust_recipe` request. -/
def reqAdjustNone : AtfoodRequest :=
  ⟨"adjust_recipe", none, none, none, none, none⟩

/-! ## Provider response shape, `extract_output_text` (lines 303-315) and
usage extraction (lines 347-355) -/

/-- One content fragment of a structured output item: its `type` tag and its
`text`; a missing attribute is `none` (the code reads `text` with default `""`). -/
structure ContentFragment where
  type : Option String
  text : Option String
deriving DecidableEq

/-- One entry of the structured `output` list: its `type` tag and its
`content` fragments (a missing or `None` list reads as `[]`). -/
structure OutputItem where
  type : Option String
  content : Option (List ContentFragment)
deriving DecidableEq

/-- The usage object of the provider; each counter attribute may be absent or
`None`, both modelled as `none`. -/
structure Usage where
  input_tokens : Option Int
  output_tokens : Option Int
  prompt_tokens : Option Int
  completion_tokens : Option Int
deriving DecidableEq

/-- The provider response: the aggregated `output_text` attribute, the
structured `output` list, and the `usage` object, each possibly absent. -/
structure ProviderResponse where
  output_text : Option String
  output : Option (List OutputItem)
  usage : Option Usage
deriving DecidableEq

/-- Embeds `extract_output_text(response)`: return a truthy top-level `output_text`;
otherwise walk the `output` list, and for each item whose type is `"message"`
collect the `text` of each content fragment whose type is `"output_text"`
into `parts`, returning their concatenation. -/
def extract_output_text (response : ProviderResponse) : String :=
  let output_text := response.output_text
  if pyTruthy output_text then output_text.getD ""
  else
    let output := response.output.getD []
    let parts := output.foldl
      (fun parts item =>
        if item.type ≠ some "message" then parts
        else (item.content.getD []).foldl
          (fun parts c =>
            if c.type = some "output_text" then parts ++ [c.text.getD ""] else parts)
          parts)
      []
    String.join parts

/-- The fragments one `"message"` item contributes, in list order (used to
state what the `extract_output_text` loops compute). -/
def itemParts (item : OutputItem) : List String :=
  (item.content.getD []).filterMap
    (fun c => if c.type = some "output_text" then some (c.text.getD "") else none)

/-- The text of one output item as the spec words it: every content fragment
tagged as output text, concatenated in list order. -/
def specItemText (item : OutputItem) : String :=
  String.join (itemParts item)

/-- The structured-output normalization as the spec words it: keep only the
entries tagged as a `"message"` item and concatenate their output-text
fragments, in list order, across all message items, into one string. -/
def specStructuredText (r : ProviderResponse) : String :=
  String.join
    (((r.output.getD []).filter (fun item => decide (item.type = some "message"))).map
      specItemText)

/-- The whole normalization policy as the spec words it: prefer a present and
non-empty top-level aggregated text field, otherwise the structured
concatenation.  Stated from the spec sentence, to be compared with
`extract_output_text`. -/
def specNormalizeOutput (r : ProviderResponse) : String :=
  match r.output_text with
  | some s => if s = "" then specStructuredText r else s
  | none => specStructuredText r

/-- An output item holding exactly one output-text fragment `s`. -/
def msgItem (s : String) : OutputItem :=
  ⟨some "message", some [⟨some "output_text", some s⟩]⟩

/-- The reported prompt-token count: `input_tokens` when present and not
`None`, else `prompt_tokens`, else `0` (also `0` for a missing usage object);
finally `int(x or 0)`. -/
def promptTokensOf (usage : Option Usage) : Int :=
  let pt : Option Int :=
    match usage with
    | none => none
    | some u => u.input_tokens
  let pt : Option Int :=
    match pt with
    | some v => some v
    | none =>
      match usage with
      | none => some 0
      | some u =>
        match u.prompt_tokens with
        | some v => some v
        | none => some 0
  pt.getD 0

/-- The reported response-token count: `output_tokens` when present and not
`None`, else `completion_tokens`, else `0` (also `0` for a missing usage
object); finally `int(x or 0)`. -/
def responseTokensOf (usage : Option Usage) : Int :=
  let rt : Option Int :=
    match usage with
    | none => none
    | some u => u.output_tokens
  let rt : Option Int :=
    match rt with
    | some v => some v
    | none =>
      match usage with
      | none => some 0
      | some u =>
        match u.completion_tokens with
        | some v => some v
        | none => some 0
  rt.getD 0

/-! ## Cost computation (lines 356-359) -/

/-- Embeds `total_cost = (Decimal(prompt_tokens) * OPEN_INPUT_PRICE_PER_1K +
Decimal(response_tokens) * OPEN_OUTPUT_PRICE_PER_1K) / Decimal("1000")`,
with exact decimal arithmetic modelled by rationals. -/
def total_cost (inputPricePer1K outputPricePer1K : ℚ)
    (prompt_tokens response_tokens : Int) : ℚ :=
  ((prompt_tokens : ℚ) * inputPricePer1K + (response_tokens : ℚ) * outputPricePer1K) /
    1000

/-! ## The request pipeline (`atfood_endpoint`, lines 318-381) -/

/-- Python `str.strip()`: drop leading and trailing whitespace. -/
def pyStrip (s : String) : String :=
  ⟨((s.data.dropWhile Char.isWhitespace).reverse.dropWhile Char.isWhitespace).reverse⟩

/-- Server configuration read from the environment at startup. -/
structure Config (τ : Type) where
  apiToken : Option String
  rateLimitRequests : ℕ
  rateLimitWindowSeconds : τ
  inputPricePer1K : ℚ
  outputPricePer1K : ℚ

/-- The process-wide `_rate_buckets` map from client key to timestamp deque
(`defaultdict(deque)`: every key reads as a list, initially empty). -/
abbrev RateBuckets (τ : Type) := String → List τ

/-- One row inserted into `atfood_conversations` by `_store_conversation`. -/
structure ConversationRecord where
  user_id : String
  action : String
  prompt : String
  response_text : String
  prompt_tokens : Int
  response_tokens : Int
  total_cost : ℚ
deriving DecidableEq

/-- The success body (`AtfoodResponse`). -/
structure AtfoodResponse where
  text : String
  prompt_tokens : Int
  response_tokens : Int
  total_cost : ℚ
deriving DecidableEq

/-- The terminal outcome of the endpoint, one constructor per HTTP status:
401, 429, 400, 502, 500, and 200 with the response body. -/
inductive Outcome where
  | unauthorized
  | rateLimited
  | badRequest
  | upstreamEmpty
  | storageError
  | ok (resp : AtfoodResponse)
deriving DecidableEq

/-- The observable effect of one request: the outcome, the rate-limiter state
after the request, and the rows inserted by the request. -/
structure StepResult (τ : Type) where
  outcome : Outcome
  buckets : RateBuckets τ
  stored : List ConversationRecord

/-- The 401 guard `if ATFOOD_API_TOKEN and x_atfood_token: if x_atfood_token
!= ATFOOD_API_TOKEN` (both truthiness checks, then exact mismatch). -/
def tokenRejected {τ : Type} (cfg : Config τ) (x_atfood_token : Option String) : Bool :=
  pyTruthy cfg.apiToken && pyTruthy x_atfood_token &&
    decide (x_atfood_token ≠ cfg.apiToken)

/-- Embeds `enforce_rate_limit` on the bucket map: run one step on the bucket
of the caller and write the mutated deque back (pruning mutates it even on reject). -/
def enforce_rate_limit {τ : Type} [LinearOrderedAddCommGroup τ]
    (cfg : Config τ) (buckets : RateBuckets τ) (clientIp : String) (now : τ) :
    Bool × RateBuckets τ :=
  let r := rateLimitStep cfg.rateLimitRequests cfg.rateLimitWindowSeconds
    (buckets clientIp) now
  (r.1, fun k => if k = clientIp then r.2 else buckets k)

/-- Python truthiness of the optional `prefs` dict: `None` and the empty dict
are falsy. -/
def prefsTruthy : Option (List (String × String)) → Bool
  | none => false
  | some l => !l.isEmpty

/-- A string in single quotes, as Python `repr` renders dict keys/values. -/
def quoteStr (s : String) : String := sq ++ s ++ sq

/-- Python `f"{payload.prefs}"`: the dict repr. -/
def reprPrefs (prefs : List (String × String)) : String :=
  "\x7b" ++
    String.intercalate ", "
      (prefs.map (fun kv => quoteStr kv.1 ++ ": " ++ quoteStr kv.2)) ++
  "\x7d"

/-- The full prompt: the template output, then a `Prefs:` line when `prefs` is
truthy, then a `Session:` line when `session_id` is truthy. -/
def finalPrompt (builder : AtfoodRequest → String) (payload : AtfoodRequest) : String :=
  let prompt := builder payload
  let prompt :=
    if prefsTruthy payload.prefs then
      prompt ++ "Prefs: " ++ reprPrefs (payload.prefs.getD []) ++ "\n"
    else prompt
  if pyTruthy payload.session_id then
    prompt ++ "Session: " ++ payload.session_id.getD "" ++ "\n"
  else prompt

/-- Embeds `user_id = (x_atfood_user or "").strip() or client_ip or "demo-user"`. -/
def resolveUserId (x_atfood_user : Option String) (clientIp : String) : String :=
  let candidate := pyStrip (x_atfood_user.getD "")
  if candidate ≠ "" then candidate
  else if clientIp ≠ "" then clientIp
  else "demo-user"

/-- The request pipeline of `atfood_endpoint`, with the response of the model
call given as data (the call succeeded) and the insert success as a flag:
authenticate, rate-limit, look up the action template, build the prompt,
extract usage and text, compute the cost, reject empty output, persist, and
respond.  The branches are written with the rate-limited bucket map repeated
so each arm is a closed record. -/
def atfood_endpoint {τ : Type} [LinearOrderedAddCommGroup τ]
    (cfg : Config τ) (buckets : RateBuckets τ) (payload : AtfoodRequest)
    (x_atfood_token x_atfood_user : Option String) (clientIp : String) (now : τ)
    (response : ProviderResponse) (storeOk : Bool) : StepResult τ :=
  if tokenRejected cfg x_atfood_token then
    ⟨Outcome.unauthorized, buckets, []⟩
  else if (enforce_rate_limit cfg buckets clientIp now).1 then
    match ACTION_PROMPTS payload.action with
    | none => ⟨Outcome.badRequest, (enforce_rate_limit cfg buckets clientIp now).2, []⟩
    | some builder =>
      if pyStrip (extract_output_text response) = "" then
        ⟨Outcome.upstreamEmpty, (enforce_rate_limit cfg buckets clientIp now).2, []⟩
      else if storeOk then
        ⟨Outcome.ok
            ⟨pyStrip (extract_output_text response),
             promptTokensOf response.usage, responseTokensOf response.usage,
             total_cost cfg.inputPricePer1K cfg.outputPricePer1K
               (promptTokensOf response.usage) (responseTokensOf response.usage)⟩,
          (enforce_rate_limit cfg buckets clientIp now).2,
          [⟨resolveUserId x_atfood_user clientIp, payload.action,
            finalPrompt builder payload, pyStrip (extract_output_text response),
            promptTokensOf response.usage, responseTokensOf response.usage,
            total_cost cfg.inputPricePer1K cfg.outputPricePer1K
              (promptTokensOf response.usage) (responseTokensOf response.usage)⟩]⟩
      else ⟨Outcome.storageError, (enforce_rate_limit cfg buckets clientIp now).2, []⟩
  else ⟨Outcome.rateLimited, (enforce_rate_limit cfg buckets clientIp now).2, []⟩

section RateLimiterProofs

variable {τ : Type} [LinearOrderedAddCommGroup τ]

theorem dropExpired_eq_self (w : List τ) (cutoff : τ)
    (h : ∀ t ∈ w, cutoff ≤ t) : dropExpired w cutoff = w := by
  induction w with
  | nil => rfl
  | cons t ts _ =>
    have ht : cutoff ≤ t := h t (List.mem_cons_self t ts)
    simp [dropExpired, not_lt.mpr ht]

theorem dropExpired_eq_nil (w : List τ) (cutoff : τ)
    (h : ∀ t ∈ w, t < cutoff) : dropExpired w cutoff = [] := by
  induction w with
  | nil => rfl
  | cons t ts ih =>
    have ht : t < cutoff := h t (List.mem_cons_self t ts)
    simp only [dropExpired, if_pos ht]
    exact ih (fun t' ht' => h t' (List.mem_cons_of_mem t ht'))

theorem dropExpired_eq_filter (w : List τ) (cutoff : τ)
    (h : w.Pairwise (· ≤ ·)) :
    dropExpired w cutoff = w.filter (fun t => !decide (t < cutoff)) := by
  induction w with
  | nil => rfl
  | cons t ts ih =>
    rcases List.pairwise_cons.mp h with ⟨hle, htail⟩
    by_cases ht : t < cutoff
    · simp [dropExpired, ht, ih htail]
    · have : ∀ t' ∈ ts, (!decide (t' < cutoff)) = true := by
        intro t' ht'
        have : cutoff ≤ t' := le_trans (not_lt.mp ht) (hle t' ht')
        simp [not_lt.mpr this]
      simp [dropExpired, ht, List.filter_eq_self.mpr this]

/-- Core induction for the sliding window: starting from a bucket `w` none of
whose entries ever expires during the calls in `rest`, and whose length is at
most the limit, the `i`-th call is allowed exactly when `w.length + i`
is below the limit, and the final bucket is `w` extended by the first
`maxRequests - w.length` call times. -/
theorem runCalls_spec (maxRequests : ℕ) (windowSeconds : τ) :
    ∀ (rest w : List τ),
      (∀ a ∈ w, ∀ t ∈ rest, t - windowSeconds ≤ a) →
      (∀ a ∈ rest, ∀ t ∈ rest, t - windowSeconds ≤ a) →
      w.length ≤ maxRequests →
      runCalls maxRequests windowSeconds w rest =
        ((List.range rest.length).map (fun i => decide (w.length + i < maxRequests)),
         w ++ rest.take (maxRequests - w.length)) := by
  intro rest
  induction rest with
  | nil => intro w _ _ _; simp [runCalls]
  | cons t ts ih =>
    intro w hw hrest hlen
    have hsurv : ∀ a ∈ w, t - windowSeconds ≤ a := fun a ha =>
      hw a ha t (List.mem_cons_self t ts)
    have hprune : dropExpired w (t - windowSeconds) = w :=
      dropExpired_eq_self w _ hsurv
    by_cases hfull : maxRequests ≤ w.length
    · have hweq : w.length = maxRequests := le_antisymm hlen hfull
      have step : rateLimitStep maxRequests windowSeconds w t = (false, w) := by
        simp [rateLimitStep, hprune, hfull]
      have ihw := ih w (fun a ha t' ht' => hw a ha t' (List.mem_cons_of_mem t ht'))
        (fun a ha t' ht' => hrest a (List.mem_cons_of_mem t ha) t' (List.mem_cons_of_mem t ht'))
        hlen
      simp only [runCalls, step, ihw, Prod.mk.injEq]
      refine ⟨?_, by simp [hweq]⟩
      rw [List.length_cons, List.range_succ_eq_map, List.map_cons, List.map_map]
      congr 1
      · simp [hweq]
      · apply List.map_congr_left
        intro i _
        simp only [Function.comp_apply]
        rw [decide_eq_decide]
        omega
    · push_neg at hfull
      have step : rateLimitStep maxRequests windowSeconds w t = (true, w ++ [t]) := by
        simp [rateLimitStep, hprune, not_le.mpr hfull]
      have hw' : ∀ a ∈ w ++ [t], ∀ t' ∈ ts, t' - windowSeconds ≤ a := by
        intro a ha t' ht'
        rcases List.mem_append.mp ha with h | h
        · exact hw a h t' (List.mem_cons_of_mem t ht')
        · rw [List.mem_singleton.mp h]
          exact hrest t (List.mem_cons_self t ts) t' (List.mem_cons_of_mem t ht')
      have ihw := ih (w ++ [t]) hw'
        (fun a ha t' ht' => hrest a (List.mem_cons_of_mem t ha) t' (List.mem_cons_of_mem t ht'))
        (by simp; omega)
      simp only [runCalls, step, ihw, Prod.mk.injEq]
      constructor
      · rw [List.length_cons, List.range_succ_eq_map, List.map_cons, List.map_map]
        congr 1
        · simp [hfull]
        · apply List.map_congr_left
          intro i _
          simp only [Function.comp_apply, List.length_append, List.length_cons,
            List.length_nil]
          rw [decide_eq_decide]
          omega
      · have htake : List.take (maxRequests - w.length) (t :: ts) =
            t :: List.take (maxRequests - (w.length + 1)) ts := by
          have h1 : maxRequests - w.length = (maxRequests - (w.length + 1)) + 1 := by omega
          rw [h1, List.take_succ_cons]
        rw [htake]
        simp

/-- C1.  Sliding-window rate limiting for a client bucket: (i) each call first
drops exactly the timestamps strictly older than `now - windowSeconds` from
the chronologically ordered bucket; (ii) starting from an empty bucket, for
calls at times `ts` that all lie within one trailing window of each other, the
first `maxRequests` calls are admitted and every further call is rejected
(starting at the `maxRequests + 1`-th) without recording a timestamp, so the
bucket ends as the first `maxRequests` call times; (iii) once the window has
fully elapsed (`T` is more than `windowSeconds` past every recorded time), the
next request is admitted. -/
theorem rate_limiter_sliding_window
    (maxRequests : ℕ) (windowSeconds : τ) (ts w : List τ) (now T : τ)
    (hchron : w.Pairwise (· ≤ ·))
    (hspan : ∀ a ∈ ts, ∀ b ∈ ts, b - windowSeconds ≤ a)
    (hmax : 0 < maxRequests)
    (hT : ∀ t ∈ ts, t + windowSeconds < T) :
    dropExpired w (now - windowSeconds)
        = w.filter (fun t => !decide (t < now - windowSeconds)) ∧
    runCalls maxRequests windowSeconds [] ts =
        ((List.range ts.length).map (fun i => decide (i < maxRequests)),
         ts.take maxRequests) ∧
    rateLimitStep maxRequests windowSeconds
        (runCalls maxRequests windowSeconds [] ts).2 T = (true, [T]) := by
  have hrun : runCalls maxRequests windowSeconds [] ts =
      ((List.range ts.length).map (fun i => decide (i < maxRequests)),
       ts.take maxRequests) := by
    have h := runCalls_spec maxRequests windowSeconds ts []
      (by intro a ha; exact absurd ha (List.not_mem_nil a)) hspan (Nat.zero_le _)
    simpa using h
  refine ⟨dropExpired_eq_filter w _ hchron, hrun, ?_⟩
  rw [hrun]
  have hnil : dropExpired (ts.take maxRequests) (T - windowSeconds) = [] := by
    apply dropExpired_eq_nil
    intro t ht
    have ht' : t ∈ ts := List.take_subset maxRequests ts ht
    exact lt_sub_iff_add_lt.mpr (hT t ht')
  have hne : maxRequests ≠ 0 := by omega
  simp [rateLimitStep, hnil, hne]

/-- Witness for C1 at `maxRequests = 2`, `windowSeconds = 10`, calls at
`[0, 1, 2, 3]`, a chronological bucket `[5, 7]`, `now = 6`, `T = 20`,
with integer clock readings. -/
theorem rate_limiter_sliding_window_witness :
    dropExpired [(5 : ℤ), 7] (6 - 10)
        = [(5 : ℤ), 7].filter (fun t => !decide (t < (6 : ℤ) - 10)) ∧
    runCalls 2 10 [] [0, 1, 2, 3] =
        ((List.range [(0 : ℤ), 1, 2, 3].length).map (fun i => decide (i < 2)),
         [(0 : ℤ), 1, 2, 3].take 2) ∧
    rateLimitStep 2 10 (runCalls 2 10 [] [(0 : ℤ), 1, 2, 3]).2 20 = (true, [20]) :=
  rate_limiter_sliding_window 2 10 [0, 1, 2, 3] [5, 7] 6 20
    (by decide) (by decide) (by decide) (by decide)

end RateLimiterProofs

/-- C6 counterexample.  With `action = adjust_recipe` and `recipe_id` missing,
the rendered `Recipe:` line carries the Python `None` rendered as the string
`"None"`: the prompt is not the one the claim mandates, whose `Recipe:` line
would use the empty string as the value. -/
theorem adjust_recipe_missing_id_renders_None :
    renderAction "adjust_recipe" reqAdjustNone =
      some ("ACTION=adjust_recipe\nGoal: Adapt this recipe without losing soul.\nRecipe: None\nRecipe blurb: \nUser constraints/request: \nIf user gave no constraints, propose 3 good adaptation directions.\n") ∧
    renderAction "adjust_recipe" reqAdjustNone ≠
      some ("ACTION=adjust_recipe\nGoal: Adapt this recipe without losing soul.\nRecipe: \nRecipe blurb: \nUser constraints/request: \nIf user gave no constraints, propose 3 good adaptation directions.\n") := by
  constructor
  · rfl
  · decide

/-- C6 amended.  For every registered action, a missing `user_text` or
`critic_topic` renders exactly as the present empty string would (the
`Field:` line is kept, with empty value), and `adjust_recipe` renders a
missing `recipe_id` with an empty blurb — but its `Recipe:` title line
renders the raw `None` as the string `"None"`, not as the empty string. -/
theorem prompt_missing_optional_fields (req : AtfoodRequest) :
    (∀ a ∈ actionNames, renderAction a req = renderAction a (fillTextFields req)) ∧
    (req.recipe_id = none →
      renderAction "adjust_recipe" req =
        some ("ACTION=adjust_recipe\nGoal: Adapt this recipe without losing soul.\nRecipe: None\nRecipe blurb: \nUser constraints/request: "
          ++ req.user_text.getD ""
          ++ "\nIf user gave no constraints, propose 3 good adaptation directions.\n")) := by
  obtain ⟨act, ut, rid, ct, sid, pf⟩ := req
  constructor
  · intro a ha
    fin_cases ha <;> rfl
  · intro h
    replace h : rid = none := h
    subst h
    simp only [renderAction, ACTION_PROMPTS]
    norm_num
    simp [adjustRecipePrompt, recipeTitleOf, recipeBlurbOf, recipeLookup,
      RECIPE_CONTEXT, pyStr, String.append_assoc, List.find?]

/-- Witness for the amended C6 at the all-`None` `adjust_recipe` request. -/
theorem prompt_missing_optional_fields_witness :
    renderAction "adjust_recipe" reqAdjustNone =
      some ("ACTION=adjust_recipe\nGoal: Adapt this recipe without losing soul.\nRecipe: None\nRecipe blurb: \nUser constraints/request: "
        ++ reqAdjustNone.user_text.getD ""
        ++ "\nIf user gave no constraints, propose 3 good adaptation directions.\n") :=
  (prompt_missing_optional_fields reqAdjustNone).2 rfl

/-- C7.  An `adjust_recipe` request whose `recipe_id` is a string absent from
`RECIPE_CONTEXT` always renders (no failure), using the raw id as the recipe
title and the empty string as the blurb. -/
theorem adjust_recipe_unknown_id (req : AtfoodRequest) (s : String)
    (hid : req.recipe_id = some s) (hunknown : recipeLookup s = none) :
    renderAction "adjust_recipe" req =
      some ("ACTION=adjust_recipe\nGoal: Adapt this recipe without losing soul.\nRecipe: "
        ++ s
        ++ "\nRecipe blurb: \nUser constraints/request: "
        ++ req.user_text.getD ""
        ++ "\nIf user gave no constraints, propose 3 good adaptation directions.\n") := by
  obtain ⟨act, ut, rid, ct, sid, pf⟩ := req
  replace hid : rid = some s := hid
  subst hid
  simp only [renderAction, ACTION_PROMPTS]
  norm_num
  simp [adjustRecipePrompt, recipeTitleOf, recipeBlurbOf, hunknown, pyStr,
    String.append_assoc]

theorem string_foldl_append (l : List String) (a : String) :
    l.foldl (fun r s => r ++ s) a = a ++ l.foldl (fun r s => r ++ s) "" := by
  induction l generalizing a with
  | nil => simp [String.append_empty]
  | cons x xs ih =>
    simp only [List.foldl]
    rw [ih (a ++ x), ih ("" ++ x), String.empty_append, String.append_assoc]

theorem string_join_cons (x : String) (xs : List String) :
    String.join (x :: xs) = x ++ String.join xs := by
  show (x :: xs).foldl (fun r s => r ++ s) "" = x ++ xs.foldl (fun r s => r ++ s) ""
  simp only [List.foldl]
  rw [string_foldl_append, String.empty_append]

theorem string_join_append (l₁ l₂ : List String) :
    String.join (l₁ ++ l₂) = String.join l₁ ++ String.join l₂ := by
  induction l₁ with
  | nil => simp [String.join, String.empty_append]
  | cons x xs ih =>
    rw [List.cons_append, string_join_cons, string_join_cons, ih, String.append_assoc]

theorem string_join_flatten (L : List (List String)) :
    String.join (L.map String.join) = String.join L.flatten := by
  induction L with
  | nil => rfl
  | cons xs rest ih =>
    rw [List.map_cons, string_join_cons, List.flatten_cons, string_join_append, ih]

theorem inner_loop_eq (cs : List ContentFragment) (acc : List String) :
    cs.foldl (fun parts c =>
        if c.type = some "output_text" then parts ++ [c.text.getD ""] else parts) acc
      = acc ++ cs.filterMap
          (fun c => if c.type = some "output_text" then some (c.text.getD "") else none) := by
  induction cs generalizing acc with
  | nil => simp
  | cons c cs ih =>
    by_cases h : c.type = some "output_text"
    · simp [List.foldl, h, ih, List.filterMap_cons]
    · simp [List.foldl, h, ih, List.filterMap_cons]

theorem outer_loop_eq (items : List OutputItem) (acc : List String) :
    items.foldl
        (fun parts item =>
          if item.type ≠ some "message" then parts
          else (item.content.getD []).foldl
            (fun parts c =>
              if c.type = some "output_text" then parts ++ [c.text.getD ""] else parts)
            parts)
        acc
      = acc ++ ((items.filter (fun item => decide (item.type = some "message"))).map
          itemParts).flatten := by
  induction items generalizing acc with
  | nil => simp
  | cons item rest ih =>
    by_cases h : item.type = some "message"
    · have hne : ¬ item.type ≠ some "message" := by simpa using h
      simp only [List.foldl, if_neg hne]
      rw [inner_loop_eq, ih]
      simp [h, itemParts, List.append_assoc]
    · simp only [List.foldl, if_pos h]
      rw [ih]
      simp [h]

theorem code_structured_eq (items : List OutputItem) :
    String.join (items.foldl
        (fun parts item =>
          if item.type ≠ some "message" then parts
          else (item.content.getD []).foldl
            (fun parts c =>
              if c.type = some "output_text" then parts ++ [c.text.getD ""] else parts)
            parts)
        []) =
    String.join ((items.filter (fun item => decide (item.type = some "message"))).map
      specItemText) := by
  rw [outer_loop_eq]
  simp only [List.nil_append]
  rw [← string_join_flatten, List.map_map]
  rfl

/-- C3.  Output normalization: `extract_output_text` computes exactly the
policy as the spec words it (`specNormalizeOutput`): a present non-empty top-level
`output_text` is returned as is, otherwise the output-text fragments of the
`"message"` items are concatenated in list order across all items; in
particular two message items with one fragment each yield the two fragments
concatenated in list order. -/
theorem output_normalization :
    (∀ r : ProviderResponse, extract_output_text r = specNormalizeOutput r) ∧
    (∀ a b : String,
      extract_output_text ⟨none, some [msgItem a, msgItem b], none⟩ = a ++ b) := by
  constructor
  · intro r
    obtain ⟨ot, out, us⟩ := r
    match ot with
    | none =>
      show String.join _ = specStructuredText _
      rw [code_structured_eq]
      rfl
    | some s =>
      by_cases hs : s = ""
      · subst hs
        show String.join _ = specNormalizeOutput _
        simp only [specNormalizeOutput, if_pos rfl]
        rw [code_structured_eq]
        rfl
      · have hie : s.isEmpty = false := by
          rw [Bool.eq_false_iff]
          intro hcontra
          exact hs ((String.isEmpty_iff s).mp hcontra)
        have htr : pyTruthy (some s) = true := by simp [pyTruthy, hie]
        simp [extract_output_text, htr, specNormalizeOutput, hs]
  · intro a b
    rfl

/-- C4.  Usage extraction: the prompt-token count is `input_tokens` when that
attribute is present and not `None`, else `prompt_tokens` (with `0` for a
missing fallback); the response-token count is `output_tokens` when present,
else `completion_tokens`; a wholly missing usage object yields `(0, 0)`. -/
theorem usage_extraction (u : Usage) :
    (∀ v : Int, u.input_tokens = some v → promptTokensOf (some u) = v) ∧
    (u.input_tokens = none → promptTokensOf (some u) = u.prompt_tokens.getD 0) ∧
    (∀ v : Int, u.output_tokens = some v → responseTokensOf (some u) = v) ∧
    (u.output_tokens = none → responseTokensOf (some u) = u.completion_tokens.getD 0) ∧
    promptTokensOf none = 0 ∧ responseTokensOf none = 0 := by
  obtain ⟨it, ot, pt, ct⟩ := u
  refine ⟨?_, ?_, ?_, ?_, rfl, rfl⟩
  · intro v hv
    replace hv : it = some v := hv
    subst hv
    rfl
  · intro hv
    replace hv : it = none := hv
    subst hv
    match pt with
    | none => rfl
    | some p => rfl
  · intro v hv
    replace hv : ot = some v := hv
    subst hv
    rfl
  · intro hv
    replace hv : ot = none := hv
    subst hv
    match ct with
    | none => rfl
    | some c => rfl

/-- Witness for C4: a usage object exposing only the fallback pair
`prompt_tokens = 7`, `completion_tokens = 9` reads as `(7, 9)`. -/
theorem usage_extraction_witness :
    promptTokensOf (some ⟨none, none, some 7, some 9⟩) = 7 ∧
    responseTokensOf (some ⟨none, none, some 7, some 9⟩) = 9 :=
  ⟨by simpa using (usage_extraction ⟨none, none, some 7, some 9⟩).2.1 rfl,
   by simpa using (usage_extraction ⟨none, none, some 7, some 9⟩).2.2.2.1 rfl⟩

/-- C5.  Cost computation: for all token counts and rates the computed cost is
exactly `(promptTokens * inputPricePer1K + responseTokens * outputPricePer1K)
/ 1000` in exact rational (fixed-point) arithmetic, and in particular
`1000` prompt tokens and `500` response tokens at rates `2` and `6` per 1K
cost exactly `5`. -/
theorem cost_computation :
    (∀ (promptTokens responseTokens : ℕ) (inRate outRate : ℚ),
      total_cost inRate outRate promptTokens responseTokens =
        ((promptTokens : ℚ) * inRate + (responseTokens : ℚ) * outRate) / 1000) ∧
    total_cost 2 6 1000 500 = 5 := by
  constructor
  · intro p r i o
    simp [total_cost]
  · norm_num [total_cost]

/-- Witness for C7 at the unknown id `mystery_dish`. -/
theorem adjust_recipe_unknown_id_witness :
    renderAction "adjust_recipe" ⟨"adjust_recipe", none, some "mystery_dish", none, none, none⟩ =
      some ("ACTION=adjust_recipe\nGoal: Adapt this recipe without losing soul.\nRecipe: "
        ++ "mystery_dish"
        ++ "\nRecipe blurb: \nUser constraints/request: "
        ++ (AtfoodRequest.mk "adjust_recipe" none (some "mystery_dish") none none none).user_text.getD ""
        ++ "\nIf user gave no constraints, propose 3 good adaptation directions.\n") :=
  adjust_recipe_unknown_id ⟨"adjust_recipe", none, some "mystery_dish", none, none, none⟩
    "mystery_dish" rfl (by decide)

theorem rateLimitStep_allowed {τ : Type} [LinearOrderedAddCommGroup τ]
    (m : ℕ) (w : τ) (b : List τ) (now : τ)
    (h : (rateLimitStep m w b now).1 = true) :
    (rateLimitStep m w b now).2 = dropExpired b (now - w) ++ [now] := by
  by_cases hc : m ≤ (dropExpired b (now - w)).length
  · simp [rateLimitStep, hc] at h
  · simp [rateLimitStep, hc]

/-- C8.  Authentication: the outcome is 401 precisely when a shared-secret
token is configured (truthy), the caller supplied a (truthy) token header,
and the two differ; with no token header at all the request always passes the
authentication step. -/
theorem authentication_iff {τ : Type} [LinearOrderedAddCommGroup τ]
    (cfg : Config τ) (buckets : RateBuckets τ) (payload : AtfoodRequest)
    (tok usr : Option String) (clientIp : String) (now : τ)
    (response : ProviderResponse) (storeOk : Bool) :
    ((atfood_endpoint cfg buckets payload tok usr clientIp now response storeOk).outcome
        = Outcome.unauthorized ↔
      pyTruthy cfg.apiToken = true ∧ pyTruthy tok = true ∧ tok ≠ cfg.apiToken) ∧
    (atfood_endpoint cfg buckets payload none usr clientIp now response storeOk).outcome
        ≠ Outcome.unauthorized := by
  have main : ∀ t : Option String,
      (atfood_endpoint cfg buckets payload t usr clientIp now response storeOk).outcome
          = Outcome.unauthorized ↔ tokenRejected cfg t = true := by
    intro t
    by_cases h : tokenRejected cfg t = true
    · simp [atfood_endpoint, h]
    · simp only [Bool.not_eq_true] at h
      by_cases hrl : (enforce_rate_limit cfg buckets clientIp now).1 = true
      · rcases hA : ACTION_PROMPTS payload.action with _ | builder
        · simp [atfood_endpoint, h, hrl, hA]
        · by_cases he : pyStrip (extract_output_text response) = ""
          · simp [atfood_endpoint, h, hrl, hA, he]
          · by_cases hs : storeOk = true
            · simp [atfood_endpoint, h, hrl, hA, he, hs]
            · simp only [Bool.not_eq_true] at hs
              simp [atfood_endpoint, h, hrl, hA, he, hs]
      · simp only [Bool.not_eq_true] at hrl
        simp [atfood_endpoint, h, hrl]
  have tr_iff : ∀ t : Option String, tokenRejected cfg t = true ↔
      (pyTruthy cfg.apiToken = true ∧ pyTruthy t = true ∧ t ≠ cfg.apiToken) := by
    intro t
    simp [tokenRejected, Bool.and_eq_true, decide_eq_true_eq, and_assoc]
  refine ⟨(main tok).trans (tr_iff tok), ?_⟩
  intro hcontra
  have h1 := (main none).mp hcontra
  simp [tokenRejected, pyTruthy] at h1

/-- Witness for C8: configured secret, mismatching header, 401. -/
theorem authentication_iff_witness :
    (@atfood_endpoint ℤ _ ⟨some "s3", 30, 60, 0, 0⟩ (fun _ => []) reqAdjustNone
        (some "wrong") none "1.2.3.4" 0 ⟨some "hi", none, none⟩ true).outcome
      = Outcome.unauthorized :=
  ((@authentication_iff ℤ _ ⟨some "s3", 30, 60, 0, 0⟩ (fun _ => []) reqAdjustNone
      (some "wrong") none "1.2.3.4" 0 ⟨some "hi", none, none⟩ true).1).mpr
    (by decide)

/-- C2.  Persistence invariant: a 200 outcome is produced only when the
request persisted exactly one conversation record (the insert succeeded);
when the insert fails no record is left and no 200 is possible, and when the
insert fails after the request passed every earlier gate (auth, rate limit,
known action, non-empty model text — i.e. the model call succeeded), the
outcome is exactly the 500 `StorageError`. -/
theorem persistence_success_invariant {τ : Type} [LinearOrderedAddCommGroup τ]
    (cfg : Config τ) (buckets : RateBuckets τ) (payload : AtfoodRequest)
    (tok usr : Option String) (clientIp : String) (now : τ)
    (response : ProviderResponse) (storeOk : Bool) :
    (∀ r : AtfoodResponse,
      (atfood_endpoint cfg buckets payload tok usr clientIp now response storeOk).outcome
          = Outcome.ok r →
      (atfood_endpoint cfg buckets payload tok usr clientIp now response storeOk).stored.length
          = 1 ∧ storeOk = true) ∧
    (storeOk = false →
      (atfood_endpoint cfg buckets payload tok usr clientIp now response storeOk).stored
          = [] ∧
      (∀ r : AtfoodResponse,
        (atfood_endpoint cfg buckets payload tok usr clientIp now response storeOk).outcome
            ≠ Outcome.ok r)) ∧
    (storeOk = false → tokenRejected cfg tok = false →
      (enforce_rate_limit cfg buckets clientIp now).1 = true →
      (ACTION_PROMPTS payload.action).isSome = true →
      pyStrip (extract_output_text response) ≠ "" →
      (atfood_endpoint cfg buckets payload tok usr clientIp now response storeOk).outcome
          = Outcome.storageError) := by
  by_cases h : tokenRejected cfg tok = true
  · refine ⟨?_, ?_, ?_⟩
    · intro r hr
      simp [atfood_endpoint, h] at hr
    · intro _
      simp [atfood_endpoint, h]
    · intro _ htok
      rw [h] at htok
      exact absurd htok (by simp)
  · simp only [Bool.not_eq_true] at h
    by_cases hrl : (enforce_rate_limit cfg buckets clientIp now).1 = true
    · rcases hA : ACTION_PROMPTS payload.action with _ | builder
      · refine ⟨?_, ?_, ?_⟩
        · intro r hr
          simp [atfood_endpoint, h, hrl, hA] at hr
        · intro _
          simp [atfood_endpoint, h, hrl, hA]
        · intro _ _ _ hsome _
          exact absurd hsome (by simp)
      · by_cases he : pyStrip (extract_output_text response) = ""
        · refine ⟨?_, ?_, ?_⟩
          · intro r hr
            simp [atfood_endpoint, h, hrl, hA, he] at hr
          · intro _
            simp [atfood_endpoint, h, hrl, hA, he]
          · intro _ _ _ _ hne
            exact absurd he hne
        · by_cases hs : storeOk = true
          · refine ⟨?_, ?_, ?_⟩
            · intro r _
              simp [atfood_endpoint, h, hrl, hA, he, hs]
            · intro hfalse
              rw [hfalse] at hs
              exact absurd hs (by simp)
            · intro hfalse _ _ _ _
              rw [hfalse] at hs
              exact absurd hs (by simp)
          · simp only [Bool.not_eq_true] at hs
            refine ⟨?_, ?_, ?_⟩
            · intro r hr
              simp [atfood_endpoint, h, hrl, hA, he, hs] at hr
            · intro _
              simp [atfood_endpoint, h, hrl, hA, he, hs]
            · intro _ _ _ _ _
              simp [atfood_endpoint, h, hrl, hA, he, hs]
    · simp only [Bool.not_eq_true] at hrl
      refine ⟨?_, ?_, ?_⟩
      · intro r hr
        simp [atfood_endpoint, h, hrl] at hr
      · intro _
        simp [atfood_endpoint, h, hrl]
      · intro _ _ hall
        rw [hrl] at hall
        exact absurd hall (by simp)

/-- Witness for C2: all gates pass but the insert fails, so the outcome is
the 500 `StorageError`. -/
theorem persistence_success_invariant_witness :
    (@atfood_endpoint ℤ _ ⟨none, 30, 60, 0, 0⟩ (fun _ => []) reqAdjustNone
        none none "1.2.3.4" 0 ⟨some "hi", none, none⟩ false).outcome
      = Outcome.storageError :=
  (@persistence_success_invariant ℤ _ ⟨none, 30, 60, 0, 0⟩ (fun _ => []) reqAdjustNone
      none none "1.2.3.4" 0 ⟨some "hi", none, none⟩ false).2.2
    rfl (by decide) (by decide) (by decide) (by decide)

/-- C9.  Empty model output: when the request passes auth, the rate limit and
the action lookup but the extracted text strips to empty, the outcome is the
502 `UpstreamEmptyResponse` and nothing is persisted; conversely every 200
response carries exactly the stripped extracted text, which is non-empty. -/
theorem empty_output_rejection {τ : Type} [LinearOrderedAddCommGroup τ]
    (cfg : Config τ) (buckets : RateBuckets τ) (payload : AtfoodRequest)
    (tok usr : Option String) (clientIp : String) (now : τ)
    (response : ProviderResponse) (storeOk : Bool) :
    (tokenRejected cfg tok = false →
     (enforce_rate_limit cfg buckets clientIp now).1 = true →
     (ACTION_PROMPTS payload.action).isSome = true →
     pyStrip (extract_output_text response) = "" →
      (atfood_endpoint cfg buckets payload tok usr clientIp now response storeOk).outcome
          = Outcome.upstreamEmpty ∧
      (atfood_endpoint cfg buckets payload tok usr clientIp now response storeOk).stored
          = []) ∧
    (∀ r : AtfoodResponse,
      (atfood_endpoint cfg buckets payload tok usr clientIp now response storeOk).outcome
          = Outcome.ok r →
      r.text = pyStrip (extract_output_text response) ∧ r.text ≠ "") := by
  constructor
  · intro h hrl hsome he
    rcases hA : ACTION_PROMPTS payload.action with _ | builder
    · rw [hA] at hsome
      exact absurd hsome (by simp)
    · constructor
      · simp [atfood_endpoint, h, hrl, hA, he]
      · simp [atfood_endpoint, h, hrl, hA, he]
  · intro r hr
    by_cases h : tokenRejected cfg tok = true
    · simp [atfood_endpoint, h] at hr
    · simp only [Bool.not_eq_true] at h
      by_cases hrl : (enforce_rate_limit cfg buckets clientIp now).1 = true
      · rcases hA : ACTION_PROMPTS payload.action with _ | builder
        · simp [atfood_endpoint, h, hrl, hA] at hr
        · by_cases he : pyStrip (extract_output_text response) = ""
          · simp [atfood_endpoint, h, hrl, hA, he] at hr
          · by_cases hs : storeOk = true
            · simp [atfood_endpoint, h, hrl, hA, he, hs] at hr
              rw [← hr]
              exact ⟨rfl, he⟩
            · simp only [Bool.not_eq_true] at hs
              simp [atfood_endpoint, h, hrl, hA, he, hs] at hr
      · simp only [Bool.not_eq_true] at hrl
        simp [atfood_endpoint, h, hrl] at hr

/-- Witness for C9: whitespace-only aggregated text strips to empty, giving
the 502 outcome and an empty insert list. -/
theorem empty_output_rejection_witness :
    (@atfood_endpoint ℤ _ ⟨none, 30, 60, 0, 0⟩ (fun _ => []) reqAdjustNone
        none none "1.2.3.4" 0 ⟨some "   ", none, none⟩ true).outcome
      = Outcome.upstreamEmpty ∧
    (@atfood_endpoint ℤ _ ⟨none, 30, 60, 0, 0⟩ (fun _ => []) reqAdjustNone
        none none "1.2.3.4" 0 ⟨some "   ", none, none⟩ true).stored
      = [] :=
  (@empty_output_rejection ℤ _ ⟨none, 30, 60, 0, 0⟩ (fun _ => []) reqAdjustNone
      none none "1.2.3.4" 0 ⟨some "   ", none, none⟩ true).1
    rfl (by decide) (by decide) (by decide)

/-- C10.  Every request that passes authentication and the rate-limit check
appends `now` to the bucket of the caller right then — before the action is even
validated — so the request consumes one sliding-window slot no matter how it
ends (400, 502, 500 or 200), the final bucket of the caller being exactly the
pruned old bucket plus `now`, and the bucket of no other key is touched. -/
theorem rate_slot_always_consumed {τ : Type} [LinearOrderedAddCommGroup τ]
    (cfg : Config τ) (buckets : RateBuckets τ) (payload : AtfoodRequest)
    (tok usr : Option String) (clientIp : String) (now : τ)
    (response : ProviderResponse) (storeOk : Bool)
    (hauth : tokenRejected cfg tok = false)
    (hallow : (enforce_rate_limit cfg buckets clientIp now).1 = true) :
    (atfood_endpoint cfg buckets payload tok usr clientIp now response storeOk).buckets
        clientIp
      = dropExpired (buckets clientIp) (now - cfg.rateLimitWindowSeconds) ++ [now] ∧
    (∀ k : String, k ≠ clientIp →
      (atfood_endpoint cfg buckets payload tok usr clientIp now response storeOk).buckets k
        = buckets k) := by
  have hb : (atfood_endpoint cfg buckets payload tok usr clientIp now response
      storeOk).buckets = (enforce_rate_limit cfg buckets clientIp now).2 := by
    rcases hA : ACTION_PROMPTS payload.action with _ | builder
    · simp [atfood_endpoint, hauth, hallow, hA]
    · by_cases he : pyStrip (extract_output_text response) = ""
      · simp [atfood_endpoint, hauth, hallow, hA, he]
      · by_cases hs : storeOk = true
        · simp [atfood_endpoint, hauth, hallow, hA, he, hs]
        · simp only [Bool.not_eq_true] at hs
          simp [atfood_endpoint, hauth, hallow, hA, he, hs]
  have hstep : (rateLimitStep cfg.rateLimitRequests cfg.rateLimitWindowSeconds
      (buckets clientIp) now).2
      = dropExpired (buckets clientIp) (now - cfg.rateLimitWindowSeconds) ++ [now] :=
    rateLimitStep_allowed _ _ _ _ hallow
  constructor
  · rw [hb]
    show (if clientIp = clientIp then _ else _) = _
    rw [if_pos rfl, hstep]
  · intro k hk
    rw [hb]
    show (if k = clientIp then _ else _) = _
    rw [if_neg hk]

/-- Witness for C10: an unknown action is still charged one slot. -/
theorem rate_slot_always_consumed_witness :
    (@atfood_endpoint ℤ _ ⟨none, 30, 60, 0, 0⟩ (fun _ => [])
        ⟨"no_such_action", none, none, none, none, none⟩
        none none "1.2.3.4" 5 ⟨some "hi", none, none⟩ true).buckets "1.2.3.4"
      = dropExpired ((fun _ => ([] : List ℤ)) "1.2.3.4") (5 - 60) ++ [5] ∧
    (∀ k : String, k ≠ "1.2.3.4" →
      (@atfood_endpoint ℤ _ ⟨none, 30, 60, 0, 0⟩ (fun _ => [])
          ⟨"no_such_action", none, none, none, none, none⟩
          none none "1.2.3.4" 5 ⟨some "hi", none, none⟩ true).buckets k
        = (fun _ => ([] : List ℤ)) k) :=
  @rate_slot_always_consumed ℤ _ ⟨none, 30, 60, 0, 0⟩ (fun _ => [])
    ⟨"no_such_action", none, none, none, none, none⟩
    none none "1.2.3.4" 5 ⟨some "hi", none, none⟩ true rfl (by decide)

end AtFood
